import Mathlib

/-!
Verification of the task/state-machine and session-ledger logic of the
`mern_stack_test` repository (Express + Mongoose backend).

The definitions below are a shallow embedding of the relevant JavaScript:

* `updateProgressRoute` — PATCH `/api/tasks/:id/progress` (taskRoutes, lines 318-368)
* `updateTask`          — PUT `/api/tasks/:id` (taskRoutes, lines 152-191)
* `toggleStatus`        — PATCH `/api/tasks/:id/status` (taskRoutes, lines 198-229)
* `createLogoutLog`     — `server/src/models/UserLog.js`, lines 92-115
* `markTokenExpired`    — `server/src/models/UserLog.js`, lines 117-123
* `getUserLogs`         — GET `/api/admin/user-logs` (userLogRoutes, lines 23-104)
* `bulkDelete`          — DELETE `/api/admin/user-logs` (userLogRoutes, lines 220-261)

JavaScript numbers that carry progress values are modelled as `ℚ` (the code never
checks integrality), timestamps as `ℤ` milliseconds, and `Math.round` as
`jsRound` (floor of x + 1/2, which is JavaScript round-half-toward-+∞ semantics).
-/

namespace MernTest

/-- Task completion status, mirroring the `status` enum of the Task schema. -/
inductive TaskStatus
  | complete
  | incomplete
deriving DecidableEq, Repr

/-- Task priority enum. -/
inductive TaskPriority
  | low
  | medium
  | high
deriving DecidableEq, Repr

/-- A task record, with the fields the task routes read and write. -/
structure Task where
  title : String
  description : String
  priority : TaskPriority
  dueDate : Option Int
  progress : Rat
  status : TaskStatus
deriving DecidableEq, Repr

/-- JavaScript `Math.round`: rounds half toward positive infinity. -/
def jsRound (q : Rat) : Int := ⌊q + 1/2⌋

/-- JavaScript `Math.min(Math.max(p, 0), 100)` as applied to progress values. -/
def clampProgress (p : Rat) : Rat := min (max p 0) 100

/-- PATCH `/api/tasks/:id/progress` (taskRoutes lines 318-368).
The body's `progress` is `none` when the field is absent (`undefined`).
Validation: `progress === undefined || progress < 0 || progress > 100` is a
400 error (the task is not touched).  Otherwise the clamped value is stored
and the status derivation of lines 346-351 runs: progress 100 forces
`complete`; progress strictly positive on a previously `complete` task forces
`incomplete`; otherwise status is untouched. -/
def updateProgressRoute (t : Task) (progress : Option Rat) : Except String Task :=
  match progress with
  | none => .error "Progress must be between 0 and 100"
  | some p =>
    if p < 0 ∨ 100 < p then
      .error "Progress must be between 0 and 100"
    else
      let newProgress := clampProgress p
      let newStatus :=
        if newProgress = 100 then TaskStatus.complete
        else if 0 < newProgress ∧ t.status = TaskStatus.complete then TaskStatus.incomplete
        else t.status
      .ok { t with progress := newProgress, status := newStatus }

/-- The stored task after the progress route runs: the route returns 400 before
any write, so on error the stored task is unchanged. -/
def afterUpdateProgress (t : Task) (progress : Option Rat) : Task :=
  match updateProgressRoute t progress with
  | .ok t1 => t1
  | .error _ => t

/-- The request body of PUT `/api/tasks/:id`; `none` models an absent
(`undefined`) field.  A supplied `dueDate` may itself be null (cleared). -/
structure TaskUpdate where
  title : Option String := none
  description : Option String := none
  status : Option TaskStatus := none
  priority : Option TaskPriority := none
  dueDate : Option (Option Int) := none
  progress : Option Rat := none
deriving Repr

/-- PUT `/api/tasks/:id` (taskRoutes lines 152-191): each supplied field is
stored (title/description trimmed, progress clamped into [0,100]); no
progress→status derivation is performed. -/
def updateTask (t : Task) (u : TaskUpdate) : Task :=
  { t with
    title := (u.title.map String.trim).getD t.title
    description := (u.description.map String.trim).getD t.description
    status := u.status.getD t.status
    priority := u.priority.getD t.priority
    dueDate := u.dueDate.getD t.dueDate
    progress := (u.progress.map clampProgress).getD t.progress }

/-- PATCH `/api/tasks/:id/status` (taskRoutes lines 198-229): flips the status
and touches nothing else. -/
def toggleStatus (t : Task) : Task :=
  { t with
    status := if t.status = TaskStatus.complete then TaskStatus.incomplete
              else TaskStatus.complete }

/-- A completed task at 100% progress, used as a concrete test state. -/
def demoDone : Task :=
  { title := "ship release"
    description := "cut the final build"
    priority := TaskPriority.medium
    dueDate := none
    progress := 100
    status := TaskStatus.complete }

/-- An incomplete task at 40% progress, used as a concrete test state. -/
def demoBase : Task :=
  { title := "draft report"
    description := "first pass"
    priority := TaskPriority.low
    dueDate := none
    progress := 40
    status := TaskStatus.incomplete }

example : afterUpdateProgress demoDone (some 0) =
    { demoDone with progress := 0 } := by decide

example : updateProgressRoute demoBase (some 80) =
    .ok { demoBase with progress := 80 } := by rfl

example : updateProgressRoute demoDone (some 40) =
    .ok { demoDone with progress := 40, status := TaskStatus.incomplete } := by rfl

example : jsRound (-2) = -2 := by norm_num [jsRound]

example : jsRound (5/2) = 3 := by norm_num [jsRound]

example : jsRound (-5/2) = -2 := by norm_num [jsRound]

example : jsRound (((0 - 120000 : Int) : Rat) / 60000) = -2 := by norm_num [jsRound]

/-! ### Session ledger (`server/src/models/UserLog.js`) -/

/-- The `action` enum of the user-log schema. -/
inductive LogAction
  | login
  | logout
  | token_refresh
  | failed_login
deriving DecidableEq, Repr

/-- The `status` enum of the user-log schema. -/
inductive LogStatus
  | active
  | expired
  | logged_out
deriving DecidableEq, Repr

/-- The `role` enum of the user-log schema. -/
inductive UserRole
  | user
  | admin
deriving DecidableEq, Repr

/-- One user-log document.  Timestamps are milliseconds since the epoch (`ℤ`);
`id` stands for the Mongo `_id`. -/
structure LogEntry where
  id : Nat
  userId : Nat
  userName : String
  email : String
  role : UserRole
  action : LogAction
  loginTime : Option Int := none
  logoutTime : Option Int := none
  jwtTokenId : Option String := none
  ipAddress : Option String := none
  userAgent : Option String := none
  sessionDuration : Option Int := none
  status : LogStatus := LogStatus.active
  createdAt : Int
deriving DecidableEq, Repr

/-- The `findOne` filter of `createLogoutLog` (UserLog.js lines 94-99):
`{ userId, jwtTokenId, action: 'login', status: 'active' }`. -/
def logoutMatch (uid : Nat) (tid : String) (e : LogEntry) : Prop :=
  e.userId = uid ∧ e.jwtTokenId = some tid ∧
    e.action = LogAction.login ∧ e.status = LogStatus.active

instance (uid : Nat) (tid : String) (e : LogEntry) : Decidable (logoutMatch uid tid e) := by
  unfold logoutMatch; infer_instance

/-- The documents a `createLogoutLog (uid, tid)` query matches, in store order. -/
def activeLoginMatches (uid : Nat) (tid : String) (l : List LogEntry) : List LogEntry :=
  l.filter fun e => decide (logoutMatch uid tid e)

/-- The document `.sort createdAt: -1` surfaces first: an entry of maximal
`createdAt` (the earlier of two equal timestamps; Mongo leaves ties
unspecified). -/
def mostRecent : List LogEntry → Option LogEntry
  | [] => none
  | e :: es =>
    match mostRecent es with
    | none => some e
    | some b => if b.createdAt < e.createdAt then some e else some b

/-- The in-place update of UserLog.js lines 102-109: stamp `logoutTime`,
`sessionDuration = Math.round((logoutTime - loginTime) / 60000)` and
`status = 'logged_out'`.  A null `loginTime` coerces to 0 in the JavaScript
subtraction, hence `getD 0`. -/
def closeEntry (now : Int) (lg : LogEntry) : LogEntry :=
  { lg with
    logoutTime := some now
    sessionDuration := some (jsRound (((now - lg.loginTime.getD 0 : Int) : Rat) / 60000))
    status := LogStatus.logged_out }

/-- `UserLog.createLogoutLog` (UserLog.js lines 92-115): find the most recent
active login for `(uid, tid)`; if found, close it in place and return it,
otherwise return null and leave the store untouched.  The result pairs the
returned document with the post-state of the store. -/
def createLogoutLog (now : Int) (uid : Nat) (tid : String) (l : List LogEntry) :
    Option LogEntry × List LogEntry :=
  match mostRecent (activeLoginMatches uid tid l) with
  | none => (none, l)
  | some lg =>
    (some (closeEntry now lg), l.map fun e => if e.id = lg.id then closeEntry now lg else e)

/-- The per-document effect of `markTokenExpired`: an active entry carrying
the credential gets `status = 'expired'`; every other entry is untouched. -/
def expireOne (tid : String) (e : LogEntry) : LogEntry :=
  if e.jwtTokenId = some tid ∧ e.status = LogStatus.active then
    { e with status := LogStatus.expired }
  else e

/-- `UserLog.markTokenExpired` (UserLog.js lines 117-123):
`updateMany({jwtTokenId, status: 'active'}, {status: 'expired'})`. -/
def markTokenExpired (tid : String) (l : List LogEntry) : List LogEntry :=
  l.map (expireOne tid)

/-- Login entry of subject 1 on credential instance `c1` at time 0. -/
def demoE1 : LogEntry :=
  { id := 1, userId := 1, userName := "u1", email := "u1@example.com"
    role := UserRole.user, action := LogAction.login
    loginTime := some 0, jwtTokenId := some "c1", createdAt := 0 }

/-- Login entry of the same subject on a second credential `c2` at time 1000. -/
def demoE2 : LogEntry :=
  { id := 2, userId := 1, userName := "u1", email := "u1@example.com"
    role := UserRole.user, action := LogAction.login
    loginTime := some 1000, jwtTokenId := some "c2", createdAt := 1000 }

/-- Two concurrently active sessions of subject 1. -/
def demoLedger : List LogEntry := [demoE1, demoE2]

/-- A clock-skewed login entry: `loginTime` lies in the future of the logout. -/
def demoSkew : LogEntry :=
  { id := 3, userId := 2, userName := "u2", email := "u2@example.com"
    role := UserRole.user, action := LogAction.login
    loginTime := some 120000, jwtTokenId := some "c9", createdAt := 100 }

/-- A one-entry store holding only the skewed session. -/
def demoSkewLedger : List LogEntry := [demoSkew]

example : activeLoginMatches 1 "c1" demoLedger = [demoE1] := by decide

example : mostRecent demoLedger = some demoE2 := by decide

example : createLogoutLog 120000 1 "c1" demoLedger =
    (some (closeEntry 120000 demoE1), [closeEntry 120000 demoE1, demoE2]) := by rfl

example : (closeEntry 120000 demoE1).sessionDuration = some 2 := by
  norm_num [closeEntry, demoE1, jsRound]

example : (closeEntry 0 demoSkew).sessionDuration = some (-2) := by
  norm_num [closeEntry, demoSkew, jsRound]

example : markTokenExpired "c1" demoLedger =
    [{ demoE1 with status := LogStatus.expired }, demoE2] := by decide

/-! ### Query, pagination and bulk deletion (`server/src/routes/userLogRoutes.js`) -/

/-- Does `pat` occur at the head of `s`?  Character comparison helper for the
case-insensitive `$regex` email filter (patterns are used as plain text). -/
def segStarts : List Char → List Char → Bool
  | [], _ => true
  | _ :: _, [] => false
  | a :: as, b :: bs => a == b && segStarts as bs

/-- Does `pat` occur anywhere inside `s`? -/
def segIn (pat : List Char) : List Char → Bool
  | [] => pat.isEmpty
  | b :: bs => segStarts pat (b :: bs) || segIn pat bs

/-- ASCII lower-casing of one character (the email fields hold ASCII text). -/
def lowerChar (c : Char) : Char :=
  if 65 ≤ c.toNat ∧ c.toNat ≤ 90 then Char.ofNat (c.toNat + 32) else c

/-- The `{$regex: pat, $options: 'i'}` email filter: case-insensitive
substring containment. -/
def emailMatches (pat s : String) : Bool :=
  segIn (pat.toList.map lowerChar) (s.toList.map lowerChar)

/-- The recognized filter fields of both GET `/api/admin/user-logs` and the
bulk DELETE body (userLogRoutes lines 40-50 and 229-238); `none` models an
absent field. -/
structure LogFilters where
  action : Option LogAction := none
  role : Option UserRole := none
  email : Option String := none
  startDate : Option Int := none
  endDate : Option Int := none
deriving Repr

/-- The Mongo query object built from the filters: exact match on `action` and
`role`, case-insensitive substring on `email`, inclusive `createdAt` range. -/
def logFilterPred (f : LogFilters) (e : LogEntry) : Bool :=
  (f.action.all fun a => e.action == a) &&
  (f.role.all fun r => e.role == r) &&
  (f.email.all fun pat => emailMatches pat e.email) &&
  (f.startDate.all fun d => decide (d ≤ e.createdAt)) &&
  (f.endDate.all fun d => decide (e.createdAt ≤ d))

/-- Filters with no recognized field set: the empty Mongo query `{}`. -/
def emptyFilters : LogFilters := {}

/-- Insert into a list already sorted by `createdAt` descending. -/
def insertDesc (e : LogEntry) : List LogEntry → List LogEntry
  | [] => [e]
  | x :: xs => if x.createdAt ≤ e.createdAt then e :: x :: xs else x :: insertDesc e xs

/-- The `.sort createdAt: -1` applied by the GET route (its default
`sortBy`/`sortOrder`). -/
def sortByCreatedAtDesc : List LogEntry → List LogEntry
  | [] => []
  | x :: xs => insertDesc x (sortByCreatedAtDesc xs)

/-- The pagination payload of GET `/api/admin/user-logs`. -/
structure LogPage where
  items : List LogEntry
  currentPage : Nat
  totalPages : Nat
  totalCount : Nat
  hasNextPage : Bool
  hasPrevPage : Bool
deriving Repr, DecidableEq

/-- GET `/api/admin/user-logs` (userLogRoutes lines 23-104): filter, sort by
`createdAt` descending, `skip = (page-1)*limit`, take `limit`;
`totalPages = Math.ceil(totalCount/limit)`, `hasNextPage = page < totalPages`,
`hasPrevPage = page > 1`.  `page` is 1-based and `limit` positive (the route
defaults are 1 and 20). -/
def getUserLogs (f : LogFilters) (page limit : Nat) (l : List LogEntry) : LogPage :=
  let matched := l.filter (logFilterPred f)
  let totalCount := matched.length
  let skip := (page - 1) * limit
  let totalPages := (totalCount + limit - 1) / limit
  { items := ((sortByCreatedAtDesc matched).drop skip).take limit
    currentPage := page
    totalPages := totalPages
    totalCount := totalCount
    hasNextPage := decide (page < totalPages)
    hasPrevPage := decide (1 < page) }

/-- The `deleteQuery` construction of DELETE `/api/admin/user-logs`
(userLogRoutes lines 224-244): a non-empty `ids` array wins and deletes by id
membership; otherwise a supplied `filters` object deletes by the filter
predicate; otherwise the request is a 400 error. -/
def bulkDeleteQuery (ids : Option (List Nat)) (filters : Option LogFilters) :
    Except String (LogEntry → Bool) :=
  match ids, filters with
  | some is, f =>
    if is.isEmpty then
      match f with
      | some f1 => .ok (logFilterPred f1)
      | none => .error "Either ids array or filters object is required"
    else
      .ok fun e => is.contains e.id
  | none, some f1 => .ok (logFilterPred f1)
  | none, none => .error "Either ids array or filters object is required"

/-- DELETE `/api/admin/user-logs` (userLogRoutes lines 220-261): build the
delete query, run `deleteMany`, and report the remaining store together with
`deletedCount`. -/
def bulkDelete (ids : Option (List Nat)) (filters : Option LogFilters)
    (l : List LogEntry) : Except String (List LogEntry × Nat) :=
  match bulkDeleteQuery ids filters with
  | .error m => .error m
  | .ok q => .ok (l.filter fun e => !(q e), (l.filter q).length)

/-- The stored ledger after a bulk-delete request: the 400 error is returned
before `deleteMany` runs, so on error the store is unchanged. -/
def afterBulkDelete (ids : Option (List Nat)) (filters : Option LogFilters)
    (l : List LogEntry) : List LogEntry :=
  match bulkDelete ids filters l with
  | .ok r => r.1
  | .error _ => l

/-- Forty-five identical matching entries, for the pagination example. -/
def demo45 : List LogEntry := List.replicate 45 demoE1

example : bulkDelete none (some emptyFilters) demoLedger = .ok ([], 2) := by rfl

example : bulkDelete none none demoLedger =
    .error "Either ids array or filters object is required" := by rfl

example : bulkDelete (some [1]) (some emptyFilters) demoLedger = .ok ([demoE2], 1) := by rfl

example : (getUserLogs emptyFilters 3 20 demo45).items.length = 5 := by decide

example : (getUserLogs emptyFilters 3 20 demo45).totalPages = 3 := by decide

example : (getUserLogs emptyFilters 3 20 demo45).hasNextPage = false := by decide

example : (getUserLogs emptyFilters 1 20 demo45).hasPrevPage = false := by decide

example : emailMatches "EXAMple" "u1@example.com" = true := by decide

/-! ### Helper lemmas -/

theorem mostRecent_spec (l : List LogEntry) :
    ∀ b, mostRecent l = some b → b ∈ l ∧ ∀ e ∈ l, e.createdAt ≤ b.createdAt := by
  induction l with
  | nil => intro b h; simp [mostRecent] at h
  | cons x xs ih =>
    intro b h
    cases hx : mostRecent xs with
    | none =>
      simp only [mostRecent, hx] at h
      cases h
      refine ⟨List.mem_cons_self x xs, ?_⟩
      intro e he
      rcases List.mem_cons.mp he with h1 | h2
      · rw [h1]
      · cases xs with
        | nil => simp at h2
        | cons y ys =>
          exfalso
          simp only [mostRecent] at hx
          cases hy : mostRecent ys with
          | none => rw [hy] at hx; simp at hx
          | some b2 => rw [hy] at hx; by_cases hlt : b2.createdAt < y.createdAt <;>
              simp [hlt] at hx
    | some b2 =>
      simp only [mostRecent, hx] at h
      by_cases hlt : b2.createdAt < x.createdAt
      · rw [if_pos hlt] at h
        cases h
        refine ⟨List.mem_cons_self x xs, ?_⟩
        intro e he
        rcases List.mem_cons.mp he with h1 | h2
        · rw [h1]
        · exact ((ih b2 hx).2 e h2).trans hlt.le
      · rw [if_neg hlt] at h
        cases h
        refine ⟨List.mem_cons_of_mem x (ih b hx).1, ?_⟩
        intro e he
        rcases List.mem_cons.mp he with h1 | h2
        · rw [h1]; exact not_lt.mp hlt
        · exact (ih b hx).2 e h2

theorem length_insertDesc (e : LogEntry) (l : List LogEntry) :
    (insertDesc e l).length = l.length + 1 := by
  induction l with
  | nil => rfl
  | cons x xs ih =>
    by_cases hx : x.createdAt ≤ e.createdAt <;> simp [insertDesc, hx, ih]

theorem length_sortByCreatedAtDesc (l : List LogEntry) :
    (sortByCreatedAtDesc l).length = l.length := by
  induction l with
  | nil => rfl
  | cons x xs ih => simp [sortByCreatedAtDesc, length_insertDesc, ih]

theorem lt_ceilDiv (p t k : Nat) (hk : 1 ≤ k) : p < (t + k - 1) / k ↔ p * k < t := by
  rw [Nat.lt_iff_add_one_le, Nat.le_div_iff_mul_le hk, add_mul, one_mul]
  generalize p * k = q
  omega

/-! ### Claim theorems -/

/-- C1 counterexample: dropping progress to 0 on a complete task leaves the
status `complete` — the route only forces `incomplete` when the new progress
is strictly positive, so the claim's "including when p == 0" fails. -/
theorem setProgress_zero_counterexample :
    (afterUpdateProgress demoDone (some 0)).progress = 0 ∧
    (afterUpdateProgress demoDone (some 0)).status = TaskStatus.complete ∧
    TaskStatus.complete ≠ TaskStatus.incomplete := by decide

/-- C1 (amended): for valid progress `p ∈ [0,100]`, PATCH `/tasks/:id/progress`
stores `p` and derives status: `p = 100` forces `complete`; `0 < p < 100` on a
previously complete task forces `incomplete`; `p = 0` leaves the status
unchanged; otherwise the status is untouched. -/
theorem setProgress_derivation (t : Task) (p : Rat) (h0 : 0 ≤ p) (h1 : p ≤ 100) :
    updateProgressRoute t (some p) =
      .ok { t with
            progress := p
            status :=
              if p = 100 then TaskStatus.complete
              else if 0 < p ∧ t.status = TaskStatus.complete then TaskStatus.incomplete
              else t.status } := by
  have hnc : ¬ (p < 0 ∨ 100 < p) := by
    rw [not_or, not_lt, not_lt]; exact ⟨h0, h1⟩
  have hc : clampProgress p = p := by
    unfold clampProgress; rw [max_eq_left h0, min_eq_left h1]
  simp only [updateProgressRoute, if_neg hnc, hc]

/-- C1 witness: setting progress 50 on a complete task at 100% stores 50 and
flips the status to incomplete. -/
theorem setProgress_derivation_witness :
    (0 : Rat) ≤ 50 ∧ (50 : Rat) ≤ 100 ∧
    updateProgressRoute demoDone (some 50) =
      .ok { demoDone with progress := 50, status := TaskStatus.incomplete } := by
  refine ⟨by norm_num, by norm_num, ?_⟩
  rw [setProgress_derivation demoDone 50 (by norm_num) (by norm_num)]
  rfl

/-- C2: `createLogoutLog` closes exactly the most recent active login entry of
`(userId, jwtTokenId)`: if no entry matches (in particular when the session is
already closed) it returns null and leaves the store untouched; on a match the
selected entry has maximal `createdAt` among the matches, is closed in place,
and every entry with a different id is left in the store unchanged. -/
theorem recordLogout_correct (now : Int) (uid : Nat) (tid : String) (l : List LogEntry) :
    ((∀ e ∈ l, ¬ logoutMatch uid tid e) → createLogoutLog now uid tid l = (none, l)) ∧
    (∀ lg, mostRecent (activeLoginMatches uid tid l) = some lg →
      logoutMatch uid tid lg ∧
      (∀ e ∈ l, logoutMatch uid tid e → e.createdAt ≤ lg.createdAt) ∧
      createLogoutLog now uid tid l =
        (some (closeEntry now lg),
         l.map fun e => if e.id = lg.id then closeEntry now lg else e) ∧
      (∀ e ∈ l, e.id ≠ lg.id → e ∈ (createLogoutLog now uid tid l).2)) := by
  constructor
  · intro h
    have hf : activeLoginMatches uid tid l = [] := by
      simp only [activeLoginMatches, List.filter_eq_nil_iff]
      intro e he
      simpa using h e he
    simp [createLogoutLog, hf, mostRecent]
  · intro lg hlg
    have hspec := mostRecent_spec (activeLoginMatches uid tid l) lg hlg
    have hmem := List.mem_filter.mp hspec.1
    have hmatch : logoutMatch uid tid lg := by simpa using hmem.2
    refine ⟨hmatch, ?_, ?_, ?_⟩
    · intro e he hm
      exact hspec.2 e (List.mem_filter.mpr ⟨he, by simpa using hm⟩)
    · simp [createLogoutLog, hlg]
    · intro e he hne
      simp only [createLogoutLog, hlg]
      exact List.mem_map.mpr ⟨e, he, by simp [hne]⟩

/-- C2 witness: in the two-device scenario, logging out credential `c1` closes
only the `c1` entry; the concurrently active `c2` entry stays in the store
unchanged (the map leaves every other id alone). -/
theorem recordLogout_correct_witness :
    logoutMatch 1 "c1" demoE1 ∧
    createLogoutLog 120000 1 "c1" demoLedger =
      (some (closeEntry 120000 demoE1),
       demoLedger.map fun e => if e.id = demoE1.id then closeEntry 120000 demoE1 else e) := by
  have h := (recordLogout_correct 120000 1 "c1" demoLedger).2 demoE1 (by decide)
  exact ⟨h.1, h.2.2.1⟩

/-- C3 counterexample: the route validates only `progress < 0 || progress > 100`
and never checks integrality, so the non-integer 101/2 = 50.5 is accepted and
stored instead of being rejected with `InvalidProgress`. -/
theorem setProgress_accepts_noninteger_counterexample :
    updateProgressRoute demoBase (some (mkRat 101 2)) =
      .ok { demoBase with progress := mkRat 101 2 } := by rfl

/-- C3 (amended): PATCH `/tasks/:id/progress` rejects exactly a missing value
and values outside `[0,100]` (integrality is not checked), answering the fixed
error message and leaving the stored task unchanged. -/
theorem setProgress_rejects_out_of_range (t : Task) (p : Rat) (h : p < 0 ∨ 100 < p) :
    updateProgressRoute t (some p) = .error "Progress must be between 0 and 100" ∧
    afterUpdateProgress t (some p) = t ∧
    updateProgressRoute t none = .error "Progress must be between 0 and 100" := by
  have h1 : updateProgressRoute t (some p) = .error "Progress must be between 0 and 100" := by
    simp only [updateProgressRoute, if_pos h]
  refine ⟨h1, ?_, rfl⟩
  simp [afterUpdateProgress, h1]

/-- C3 witness: progress 150 is rejected and the task is unchanged. -/
theorem setProgress_rejects_witness :
    ((150 : Rat) < 0 ∨ (100 : Rat) < 150) ∧
    updateProgressRoute demoBase (some 150) = .error "Progress must be between 0 and 100" ∧
    afterUpdateProgress demoBase (some 150) = demoBase := by
  have h : (150 : Rat) < 0 ∨ (100 : Rat) < 150 := Or.inr (by norm_num)
  have h2 := setProgress_rejects_out_of_range demoBase 150 h
  exact ⟨h, h2.1, h2.2.1⟩

/-- C4 counterexample: a logout at time 0 for a login stamped at time 120000
(clock skew) stores `sessionDuration = -2`, so the stored duration is negative
and differs from the claimed `max 0 (round ...) = 0`. -/
theorem duration_negative_counterexample :
    (createLogoutLog 0 2 "c9" demoSkewLedger).1 = some (closeEntry 0 demoSkew) ∧
    (closeEntry 0 demoSkew).sessionDuration = some (-2) ∧
    ¬ (-2 : Int) = max 0 (-2) := by
  refine ⟨rfl, ?_, by decide⟩
  norm_num [closeEntry, demoSkew, jsRound]

/-- C4 (amended): the stamped duration is `Math.round((logoutTime -
loginTime)/60000)` with no flooring at 0; it is nonnegative whenever the
logout does not precede the login, but clock skew can make it negative. -/
theorem recordLogout_duration (now : Int) (uid : Nat) (tid : String) (l : List LogEntry)
    (lg : LogEntry) (tL : Int)
    (h1 : mostRecent (activeLoginMatches uid tid l) = some lg)
    (h2 : lg.loginTime = some tL) :
    (createLogoutLog now uid tid l).1 = some (closeEntry now lg) ∧
    (closeEntry now lg).sessionDuration =
      some (jsRound (((now - tL : Int) : Rat) / 60000)) ∧
    (tL ≤ now → ∀ d : Int, (closeEntry now lg).sessionDuration = some d → 0 ≤ d) := by
  refine ⟨by simp [createLogoutLog, h1], by simp [closeEntry, h2], ?_⟩
  intro hle d hd
  simp only [closeEntry, h2, Option.getD_some, Option.some.injEq] at hd
  rw [← hd]
  unfold jsRound
  have hq : (0 : Rat) ≤ ((now - tL : Int) : Rat) / 60000 := by
    apply div_nonneg
    · exact_mod_cast sub_nonneg.mpr hle
    · norm_num
  apply Int.le_floor.mpr
  push_cast at hq ⊢
  linarith

/-- C4 witness: the two-minute demo session gets duration
`round(120000/60000) = 2` and the nonnegativity bound applies. -/
theorem recordLogout_duration_witness :
    demoE1.loginTime = some 0 ∧
    (closeEntry 120000 demoE1).sessionDuration =
      some (jsRound (((120000 - 0 : Int) : Rat) / 60000)) ∧
    ((0 : Int) ≤ 120000 → ∀ d : Int,
      (closeEntry 120000 demoE1).sessionDuration = some d → 0 ≤ d) := by
  have h := recordLogout_duration 120000 1 "c1" demoLedger demoE1 0 (by decide) rfl
  exact ⟨rfl, h.2.1, h.2.2⟩

/-- C5 counterexample: a PUT that lowers progress from 100 to 50 on a complete
task leaves the status `complete` — the general field-update route performs no
progress→status derivation. -/
theorem updateFields_no_derivation_counterexample :
    (updateTask demoDone { progress := some 50 }).progress = 50 ∧
    (updateTask demoDone { progress := some 50 }).status = TaskStatus.complete ∧
    TaskStatus.complete ≠ TaskStatus.incomplete := by decide

/-- C5 (amended): PUT `/tasks/:id` stores a supplied progress clamped into
`[0,100]` without recomputing the status; when no status is supplied the
status is left exactly as it was, whatever progress is written. -/
theorem updateFields_progress (t : Task) (u : TaskUpdate) (h : u.status = none) :
    (updateTask t u).status = t.status ∧
    (updateTask t u).progress = (u.progress.map clampProgress).getD t.progress := by
  simp [updateTask, h]

/-- C5 witness: updating only the progress of the demo task keeps its status. -/
theorem updateFields_progress_witness :
    ({ progress := some 50 } : TaskUpdate).status = none ∧
    (updateTask demoDone { progress := some 50 }).status = demoDone.status := by
  exact ⟨rfl, (updateFields_progress demoDone { progress := some 50 } rfl).1⟩

/-- C6: PATCH `/tasks/:id/status` flips the status between complete and
incomplete, leaves every other field of the task unchanged, and applying it
twice restores the original task. -/
theorem toggleStatus_correct (t : Task) :
    (toggleStatus t).status =
      (if t.status = TaskStatus.complete then TaskStatus.incomplete
       else TaskStatus.complete) ∧
    (toggleStatus t).progress = t.progress ∧
    (toggleStatus t).title = t.title ∧
    (toggleStatus t).description = t.description ∧
    (toggleStatus t).priority = t.priority ∧
    (toggleStatus t).dueDate = t.dueDate ∧
    toggleStatus (toggleStatus t) = t := by
  refine ⟨rfl, rfl, rfl, rfl, rfl, rfl, ?_⟩
  cases t with
  | mk title description priority dueDate progress status => cases status <;> rfl

/-- C7: `markTokenExpired` maps each entry with the given `jwtTokenId` and
status active to status expired, touching no other field and no other entry
(pointwise description of the store), and is idempotent. -/
theorem expireByCredential_correct (tid : String) (l : List LogEntry) :
    markTokenExpired tid (markTokenExpired tid l) = markTokenExpired tid l ∧
    ∀ i : Nat, (markTokenExpired tid l)[i]? = (l[i]?).map (expireOne tid) := by
  have hidem : ∀ e, expireOne tid (expireOne tid e) = expireOne tid e := by
    intro e
    unfold expireOne
    by_cases hc : e.jwtTokenId = some tid ∧ e.status = LogStatus.active
    · rw [if_pos hc, if_neg (by simp)]
    · rw [if_neg hc, if_neg hc]
  constructor
  · unfold markTokenExpired
    rw [List.map_map]
    apply List.map_congr_left
    intro e _
    exact hidem e
  · intro i
    unfold markTokenExpired
    exact List.getElem?_map (expireOne tid) l i

/-- C8 counterexample: a bulk delete supplying BOTH a non-empty ids array and
a filters object succeeds: the ids branch wins, the single matching entry is
deleted, and no `InvalidRequest` error is produced. -/
theorem bulkDelete_both_supplied_counterexample :
    bulkDelete (some [3]) (some emptyFilters) demoSkewLedger = .ok ([], 1) := by rfl

/-- C8 (amended): supplying neither ids nor filters fails with the error and
deletes nothing; supplying both does not fail — a non-empty ids array takes
precedence and the request behaves exactly as if the filters were absent. -/
theorem bulkDelete_request_validation (l : List LogEntry) (ids : List Nat)
    (f : LogFilters) (h : ids ≠ []) :
    bulkDelete none none l = .error "Either ids array or filters object is required" ∧
    afterBulkDelete none none l = l ∧
    bulkDelete (some ids) (some f) l = bulkDelete (some ids) none l := by
  refine ⟨rfl, rfl, ?_⟩
  have hne : ids.isEmpty = false := by
    cases ids with
    | nil => exact absurd rfl h
    | cons a as => rfl
  simp [bulkDelete, bulkDeleteQuery, hne]

/-- C8 witness: the validation facts at a concrete store and id set. -/
theorem bulkDelete_request_validation_witness :
    ([1] : List Nat) ≠ [] ∧
    bulkDelete none none demoLedger = .error "Either ids array or filters object is required" ∧
    bulkDelete (some [1]) (some emptyFilters) demoLedger =
      bulkDelete (some [1]) none demoLedger := by
  have h := bulkDelete_request_validation demoLedger [1] emptyFilters (by decide)
  exact ⟨by decide, h.1, h.2.2⟩

/-- C9: the pagination of GET `/api/admin/user-logs` reports
`hasNextPage ↔ page*pageSize < totalCount`, `hasPrevPage ↔ page > 1`,
`totalPages = ceil(totalCount/pageSize)` and a page length of
`min pageSize (totalCount - (page-1)*pageSize)`; concretely, with page size 20
over 45 matching entries there are 3 pages, page 3 holds 5 items with no next
page, and page 1 has no previous page. -/
theorem filterAndPage_pagination (f : LogFilters) (page limit : Nat)
    (l : List LogEntry) (hl : 1 ≤ limit) :
    ((getUserLogs f page limit l).hasNextPage = true ↔
      page * limit < (getUserLogs f page limit l).totalCount) ∧
    ((getUserLogs f page limit l).hasPrevPage = true ↔ 1 < page) ∧
    (getUserLogs f page limit l).totalPages =
      ((getUserLogs f page limit l).totalCount + limit - 1) / limit ∧
    (getUserLogs f page limit l).items.length =
      min limit ((getUserLogs f page limit l).totalCount - (page - 1) * limit) ∧
    (getUserLogs emptyFilters 3 20 demo45).totalPages = 3 ∧
    (getUserLogs emptyFilters 3 20 demo45).items.length = 5 ∧
    (getUserLogs emptyFilters 3 20 demo45).hasNextPage = false ∧
    (getUserLogs emptyFilters 1 20 demo45).hasPrevPage = false := by
  refine ⟨?_, ?_, rfl, ?_, by decide, by decide, by decide, by decide⟩
  · simp only [getUserLogs]
    rw [decide_eq_true_iff]
    exact lt_ceilDiv page (l.filter (logFilterPred f)).length limit hl
  · simp only [getUserLogs]
    exact decide_eq_true_iff
  · simp only [getUserLogs]
    rw [List.length_take, List.length_drop, length_sortByCreatedAtDesc]

/-- C9 witness: the pagination theorem applied at page 1, page size 20, over
the 45-entry demo store. -/
theorem filterAndPage_pagination_witness :
    1 ≤ 20 ∧ ((getUserLogs emptyFilters 1 20 demo45).hasPrevPage = true ↔ 1 < 1) := by
  exact ⟨by decide, (filterAndPage_pagination emptyFilters 1 20 demo45 (by decide)).2.1⟩

/-- C10: a bulk delete with no ids and a filters object carrying none of the
recognized fields builds the empty Mongo query and deletes every log entry,
reporting the total store size as `deletedCount`. -/
theorem bulkDelete_empty_filters_deletes_all (l : List LogEntry) :
    bulkDelete none (some emptyFilters) l = .ok ([], l.length) := by
  have hp : ∀ e, logFilterPred emptyFilters e = true := fun e => rfl
  simp only [bulkDelete, bulkDeleteQuery]
  have h1 : (l.filter fun e => !(logFilterPred emptyFilters e)) = [] := by
    apply List.filter_eq_nil_iff.mpr
    intro a _
    simp [hp a]
  have h2 : l.filter (logFilterPred emptyFilters) = l := by
    apply List.filter_eq_self.mpr
    intro a _
    exact hp a
  rw [h1, h2]

end MernTest
